import Mathlib

/-!
Verification of the discord-serverless webhook core
(`src/discord_serverless.py`) against its specification.

The Python module is shallowly embedded below.  Python exceptions are
modelled with `Except PyErr`; Python `None` for an optional string is
modelled with `Option String`; Python byte strings are `List Nat`
(one entry per byte).  The Ed25519 primitive `crypto_sign_open` from
PyNaCl is outside this repository, so it is abstracted as an oracle
parameter `ed : EdVerify` taking the key bytes, the message bytes and
the signature bytes.  Likewise `json.loads` is abstracted as a
parameter of type `String → Except PyErr Payload`.
-/

/-- Python exception values relevant to this module.  `badSignature`
is PyNaCl's `BadSignatureError`; the others are builtins. -/
inductive PyErr where
  | typeError (msg : String)
  | valueError (msg : String)
  | keyError (key : String)
  | badSignature
deriving DecidableEq

/-- A Python value stored under the `type` key of an interaction
payload: the platform sends a small integer, but a string can arrive
as well; both compare unequal to an integer without raising. -/
inductive PyVal where
  | int (n : Int)
  | str (s : String)
deriving DecidableEq

/-- A deserialized interaction payload: a Python dict from string keys
to values, modelled as an association list (first binding wins, as in
a dict, whose keys are unique). -/
abbrev Payload := List (String × PyVal)

/-- A response envelope dict.  `headers = none` models a dict without
a `headers` key (the 401 envelope has none). -/
structure Resp where
  statusCode : Int
  headers : Option (List (String × String))
  body : String
deriving DecidableEq

/-- `payload[key]` on a Python dict: the value, or `KeyError`. -/
def pyGetItem (payload : Payload) (key : String) : Except PyErr PyVal :=
  match payload.lookup key with
  | some v => .ok v
  | none => .error (.keyError key)

/-- Python `==` between a payload value and an int literal: equal ints
compare true, a string compares false against an int, no exception. -/
def pyEqInt (v : PyVal) (n : Int) : Bool :=
  match v with
  | .int m => m == n
  | .str _ => false

/-- Python `str()` / f-string formatting of a payload value. -/
def pyStrOf : PyVal → String
  | .int n => toString n
  | .str s => s

/-- Value of one hexadecimal digit, or `none` for a non-hex char. -/
def hexDigitVal (c : Char) : Option Nat :=
  if ('0' ≤ c ∧ c ≤ '9') then some (c.toNat - '0'.toNat)
  else if ('a' ≤ c ∧ c ≤ 'f') then some (c.toNat - 'a'.toNat + 10)
  else if ('A' ≤ c ∧ c ≤ 'F') then some (c.toNat - 'A'.toNat + 10)
  else none

/-- ASCII whitespace skipped by `bytes.fromhex`. -/
def isPyWhitespace (c : Char) : Bool :=
  c == ' ' || c == '\t' || c == '\n' || c == '\x0b' || c == '\x0c' || c == '\r'

/-- Core loop of Python `bytes.fromhex`: whitespace may separate
byte pairs; each byte is two contiguous hex digits; anything else is
a `ValueError`. -/
def bytesFromHexCore : List Char → Except PyErr (List Nat)
  | [] => .ok []
  | c :: cs =>
    if isPyWhitespace c then bytesFromHexCore cs
    else
      match cs with
      | [] => .error (.valueError "non-hexadecimal number found in fromhex arg")
      | c2 :: rest =>
        match hexDigitVal c, hexDigitVal c2 with
        | some hi, some lo =>
          match bytesFromHexCore rest with
          | .ok bs => .ok ((16 * hi + lo) :: bs)
          | .error e => .error e
        | _, _ => .error (.valueError "non-hexadecimal number found in fromhex arg")

/-- Python `bytes.fromhex` on a string. -/
def pyBytesFromHex (s : String) : Except PyErr (List Nat) :=
  bytesFromHexCore s.data

/-- UTF-8 encoding of one character, as byte values. -/
def utf8EncodeCharNats (c : Char) : List Nat :=
  let v := c.toNat
  if v < 0x80 then [v]
  else if v < 0x800 then [0xC0 ||| (v >>> 6), 0x80 ||| (v &&& 0x3F)]
  else if v < 0x10000 then
    [0xE0 ||| (v >>> 12), 0x80 ||| ((v >>> 6) &&& 0x3F), 0x80 ||| (v &&& 0x3F)]
  else
    [0xF0 ||| (v >>> 18), 0x80 ||| ((v >>> 12) &&& 0x3F),
     0x80 ||| ((v >>> 6) &&& 0x3F), 0x80 ||| (v &&& 0x3F)]

/-- Python `str.encode()` (UTF-8), as byte values. -/
def strEncode (s : String) : List Nat :=
  (s.data.map utf8EncodeCharNats).flatten

/-- The abstracted Ed25519 primitive: given public-key bytes, message
bytes and signature bytes, does the signature check out?  This stands
for PyNaCl's `crypto_sign_open`, which is outside the repository. -/
def EdVerify : Type := List Nat → List Nat → List Nat → Bool

/-- Python `timestamp + raw_payload` where either operand may be
`None` (a missing header): string concatenation, or `TypeError`. -/
def pyAddStrOpt : Option String → Option String → Except PyErr String
  | some a, some b => .ok (a ++ b)
  | none, _ => .error (.typeError "unsupported operand types for + NoneType and str")
  | some _, none => .error (.typeError "can only concatenate str to str not NoneType")

/-- PyNaCl `VerifyKey(key)`: requires exactly 32 key bytes, else
`ValueError`. -/
def mkVerifyKey (key : List Nat) : Except PyErr (List Nat) :=
  if key.length = 32 then .ok key
  else .error (.valueError "The key must be exactly 32 bytes long")

/-- PyNaCl `VerifyKey.verify(smessage, signature)`: requires exactly
64 signature bytes, else `ValueError`; then runs the Ed25519 check and
raises `BadSignatureError` on failure, returning the message on
success. -/
def verifyKeyVerify (ed : EdVerify) (key : List Nat) (smessage : List Nat)
    (signature : List Nat) : Except PyErr (List Nat) :=
  if signature.length ≠ 64 then
    .error (.valueError "The signature must be exactly 64 bytes long")
  else if ed key smessage signature then .ok smessage
  else .error .badSignature

/-- Body of the `try` block of `discord_verify_signature`:
`verify_key.verify(message.encode(), signature=bytes.fromhex(signature))`
followed by `return True`.  A `None` signature makes `bytes.fromhex`
raise `TypeError`; malformed hex raises `ValueError`. -/
def pyVerifyAttempt (ed : EdVerify) (verify_key : List Nat) (message : String)
    (signature : Option String) : Except PyErr Bool :=
  match signature with
  | none => .error (.typeError "fromhex argument must be str not None")
  | some s =>
    match pyBytesFromHex s with
    | .error e => .error e
    | .ok sigBytes =>
      match verifyKeyVerify ed verify_key (strEncode message) sigBytes with
      | .error e => .error e
      | .ok _ => .ok true

/-- `discord_verify_signature(public_key, signature, timestamp,
raw_payload)`: builds `message = timestamp + raw_payload`, constructs
`VerifyKey(bytes.fromhex(public_key))`, then runs the verify attempt
inside a `try` that catches only `BadSignatureError` (converted to
`False`); every other exception propagates. -/
def discord_verify_signature (ed : EdVerify) (public_key : String)
    (signature timestamp raw_payload : Option String) : Except PyErr Bool :=
  match pyAddStrOpt timestamp raw_payload with
  | .error e => .error e
  | .ok message =>
    match pyBytesFromHex public_key with
    | .error e => .error e
    | .ok keyBytes =>
      match mkVerifyKey keyBytes with
      | .error e => .error e
      | .ok verify_key =>
        match pyVerifyAttempt ed verify_key message signature with
        | .ok b => .ok b
        | .error .badSignature => .ok false
        | .error e => .error e

/-- Hex digit character, lowercase, for values below 16. -/
def hexChar (n : Nat) : Char :=
  if n < 10 then Char.ofNat ('0'.toNat + n) else Char.ofNat ('a'.toNat + (n - 10))

/-- Four lowercase hex digits, as used in JSON `\uXXXX` escapes. -/
def hex4 (n : Nat) : String :=
  String.mk [hexChar (n / 4096 % 16), hexChar (n / 256 % 16),
             hexChar (n / 16 % 16), hexChar (n % 16)]

/-- A character the CPython `json` encoder leaves unescaped with
`ensure_ascii=True`: printable ASCII other than quote and backslash. -/
def plainChar (c : Char) : Bool :=
  (0x20 ≤ c.toNat && c.toNat ≤ 0x7e) && c ≠ '"' && c ≠ '\\'

/-- CPython `json.dumps` escaping of one character (default
`ensure_ascii=True`): shorthand escapes, `\uXXXX` for other escaped
characters, surrogate pairs above the BMP. -/
def jsonEscapeChar (c : Char) : String :=
  if plainChar c then String.mk [c]
  else if c = '"' then "\\\""
  else if c = '\\' then "\\\\"
  else if c = '\n' then "\\n"
  else if c = '\r' then "\\r"
  else if c = '\t' then "\\t"
  else if c.toNat = 8 then "\\b"
  else if c.toNat = 12 then "\\f"
  else if c.toNat < 0x10000 then "\\u" ++ hex4 c.toNat
  else "\\u" ++ hex4 (0xd800 + (c.toNat - 0x10000) / 0x400) ++
       "\\u" ++ hex4 (0xdc00 + (c.toNat - 0x10000) % 0x400)

/-- Escape every character of a string, in order. -/
def jsonEscapeList : List Char → String
  | [] => ""
  | c :: cs => jsonEscapeChar c ++ jsonEscapeList cs

/-- CPython `json.dumps` applied to a Python `str`. -/
def jsonDumpsStr (s : String) : String :=
  "\"" ++ jsonEscapeList s.data ++ "\""

/-- A JSON-encodable Python value as passed to `json.dumps` by this
module: ints, strings and dicts. -/
inductive JVal where
  | jint (n : Int)
  | jstr (s : String)
  | jobj (fields : List (String × JVal))

mutual

/-- CPython `json.dumps` with its default separators: `", "` between
items and `": "` after a key. -/
def jsonDumps : JVal → String
  | .jint n => toString n
  | .jstr s => jsonDumpsStr s
  | .jobj fields => "\x7b" ++ jsonDumpsFields fields ++ "\x7d"

/-- The members of a JSON object, joined by `", "`. -/
def jsonDumpsFields : List (String × JVal) → String
  | [] => ""
  | [(k, v)] => jsonDumpsStr k ++ ": " ++ jsonDumps v
  | (k, v) :: rest => jsonDumpsStr k ++ ": " ++ jsonDumps v ++ ", " ++ jsonDumpsFields rest

end

/-- `handle_discord_command(payload, base_handler)`: reads
`payload["type"]` (an uncaught `KeyError` if absent); type 1 returns
the fixed ping acknowledgement, type 2 delegates to `base_handler`,
anything else returns a 400 envelope naming the type value. -/
def handle_discord_command (payload : Payload)
    (base_handler : Payload → Except PyErr Resp) : Except PyErr Resp :=
  match pyGetItem payload "type" with
  | .error e => .error e
  | .ok command_type =>
    if pyEqInt command_type 1 then
      .ok ⟨200, some [("Content-Type", "application/json")], "\x7b \"type\": 1 \x7d"⟩
    else if pyEqInt command_type 2 then
      base_handler payload
    else
      .ok ⟨400, some [("Content-Type", "application/json")],
        jsonDumpsStr ("unhandled request type: " ++ pyStrOf command_type)⟩

/-- The handler produced by `discord_command_webhook(discord_key,
extract_header, extract_raw_payload, extract_payload)` applied to
`base_handler` and then to the runtime's arguments (of arbitrary shape
`α`): extract the two signature headers and the raw body, verify, and
either short-circuit with the 401 envelope or dispatch the extracted
payload.  Exceptions from the extractors and from verification
propagate. -/
def discord_command_webhook {α : Type} (ed : EdVerify) (discord_key : String)
    (extract_header : String → α → Except PyErr (Option String))
    (extract_raw_payload : α → Except PyErr (Option String))
    (extract_payload : α → Except PyErr Payload)
    (base_handler : Payload → Except PyErr Resp) (args : α) : Except PyErr Resp :=
  match extract_header "x-signature-ed25519" args with
  | .error e => .error e
  | .ok sigHeader =>
    match extract_header "x-signature-timestamp" args with
    | .error e => .error e
    | .ok tsHeader =>
      match extract_raw_payload args with
      | .error e => .error e
      | .ok rawBody =>
        match discord_verify_signature ed discord_key sigHeader tsHeader rawBody with
        | .error e => .error e
        | .ok is_valid =>
          if !is_valid then
            .ok ⟨401, none, "Invalid request signature"⟩
          else
            match extract_payload args with
            | .error e => .error e
            | .ok payload => handle_discord_command payload base_handler

/-- An AWS lambda event as this module touches it: the dict may or may
not have a `headers` key (a dict of strings) and a `body` key (a
string). -/
structure LambdaEvent where
  headersDict : Option (List (String × String))
  bodyVal : Option String
deriving DecidableEq

/-- The `*args` tuple of an AWS lambda handler: the event at index 0
and the (unused) context object. -/
abbrev LambdaArgs := LambdaEvent × Unit

/-- The handler produced by `discord_command_lambda(discord_key)`:
`discord_command_webhook` applied to the three inline AWS extractors
`args[0]["headers"].get(name)`, `args[0]["body"]` and
`json.loads(args[0]["body"])`. -/
def discord_command_lambda (ed : EdVerify)
    (json_loads : String → Except PyErr Payload) (discord_key : String)
    (base_handler : Payload → Except PyErr Resp)
    (args : LambdaArgs) : Except PyErr Resp :=
  discord_command_webhook ed discord_key
    (fun name a =>
      match a.1.headersDict with
      | some hs => .ok (hs.lookup name)
      | none => .error (.keyError "headers"))
    (fun a =>
      match a.1.bodyVal with
      | some b => .ok (some b)
      | none => .error (.keyError "body"))
    (fun a =>
      match a.1.bodyVal with
      | some b => json_loads b
      | none => .error (.keyError "body"))
    base_handler args

/-- `discord_command_response(interaction_callback_type, content)`:
a 200 envelope whose body is `json.dumps` of the two-level dict with
the callback type and the content. -/
def discord_command_response (interaction_callback_type : Int) (content : String) : Resp :=
  ⟨200, some [("Content-Type", "application/json")],
    jsonDumps (.jobj [("type", .jint interaction_callback_type),
                      ("data", .jobj [("content", .jstr content)])])⟩

/-- `discord_unknown_command_response(command)`: a 400 envelope whose
body is `json.dumps` of an error message naming the command. -/
def discord_unknown_command_response (command : String) : Resp :=
  ⟨400, none, jsonDumpsStr ("Unknown command: " ++ command)⟩

/-- A 32-byte all-zero public key, hex encoded (64 hex digits). -/
def pk0hex : String :=
  "0000000000000000000000000000000000000000000000000000000000000000"

/-- A 64-byte all-zero signature, hex encoded (128 hex digits). -/
def sig0hex : String :=
  String.append pk0hex pk0hex

/-- An oracle that rejects every signature. -/
def edFalse : EdVerify := fun _ _ _ => false

/-- An oracle that accepts every signature. -/
def edTrue : EdVerify := fun _ _ _ => true

/-- C1: for every request processed by the decorated handler, if
signature verification returns false then the handler returns exactly
the 401 envelope with body "Invalid request signature", the payload is
never classified and the caller-supplied command handler is never
invoked: the result is the same fixed envelope for every choice of
payload extractor and base handler, so the command handler can only be
reached when verification succeeded. -/
theorem c1_verify_failure_short_circuits {α : Type} (ed : EdVerify)
    (discord_key : String)
    (extract_header : String → α → Except PyErr (Option String))
    (extract_raw_payload : α → Except PyErr (Option String))
    (args : α) (sig ts raw : Option String)
    (hsig : extract_header "x-signature-ed25519" args = .ok sig)
    (hts : extract_header "x-signature-timestamp" args = .ok ts)
    (hraw : extract_raw_payload args = .ok raw)
    (hfail : discord_verify_signature ed discord_key sig ts raw = .ok false) :
    ∀ (extract_payload : α → Except PyErr Payload)
      (base_handler : Payload → Except PyErr Resp),
      discord_command_webhook ed discord_key extract_header extract_raw_payload
          extract_payload base_handler args
        = .ok ⟨401, none, "Invalid request signature"⟩ := by
  intro extract_payload base_handler
  simp only [discord_command_webhook, hsig, hts, hraw, hfail]
  rfl

/-- Closed witness for C1: a concrete request whose signature the
oracle rejects yields the 401 envelope. -/
theorem c1_witness :
    discord_command_webhook edFalse pk0hex
        (fun name _ => .ok (some (if name = "x-signature-timestamp" then "7" else sig0hex)))
        (fun _ => .ok (some "x"))
        (fun _ => .ok [("type", PyVal.int 2)])
        (fun _ => .ok ⟨200, none, "ok"⟩) ()
      = .ok ⟨401, none, "Invalid request signature"⟩ :=
  c1_verify_failure_short_circuits edFalse pk0hex
    (fun name _ => .ok (some (if name = "x-signature-timestamp" then "7" else sig0hex)))
    (fun _ => .ok (some "x")) () (some sig0hex) (some "7") (some "x")
    rfl rfl rfl rfl
    (fun _ => .ok [("type", PyVal.int 2)]) (fun _ => .ok ⟨200, none, "ok"⟩)

/-- C2 is false of the code: `discord_verify_signature` catches only
`BadSignatureError`, so malformed hex in the signature or the public
key raises `ValueError`, a wrong-length (for instance empty) signature
raises `ValueError`, and a missing (`None`) signature or timestamp
raises `TypeError`; none of these collapse to the boolean false. -/
theorem c2_verify_raises_on_malformed_inputs :
    (discord_verify_signature edFalse pk0hex (some "zz") (some "0") (some "")
        = .error (.valueError "non-hexadecimal number found in fromhex arg"))
    ∧ (discord_verify_signature edFalse pk0hex none (some "0") (some "")
        = .error (.typeError "fromhex argument must be str not None"))
    ∧ (discord_verify_signature edFalse pk0hex (some "") (some "0") (some "")
        = .error (.valueError "The signature must be exactly 64 bytes long"))
    ∧ (discord_verify_signature edFalse "zz" (some sig0hex) (some "0") (some "")
        = .error (.valueError "non-hexadecimal number found in fromhex arg"))
    ∧ (discord_verify_signature edFalse pk0hex (some sig0hex) none (some "")
        = .error (.typeError "unsupported operand types for + NoneType and str")) :=
  ⟨rfl, rfl, rfl, rfl, rfl⟩

/-- C3: whenever the hex decodes succeed with the right lengths (so
the primitive is reached at all), `discord_verify_signature` hands the
underlying Ed25519 primitive exactly the UTF-8 bytes of the raw
concatenation `timestamp ++ rawBody`, the hex-decoded signature and
the hex-decoded public key, and returns the primitive's verdict. -/
theorem c3_verify_passes_exact_message (ed : EdVerify)
    (public_key sigHex ts raw : String) (pkBytes sigBytes : List Nat)
    (hpk : pyBytesFromHex public_key = .ok pkBytes)
    (hpkLen : pkBytes.length = 32)
    (hsig : pyBytesFromHex sigHex = .ok sigBytes)
    (hsigLen : sigBytes.length = 64) :
    discord_verify_signature ed public_key (some sigHex) (some ts) (some raw)
      = .ok (ed pkBytes (strEncode (ts ++ raw)) sigBytes) := by
  simp only [discord_verify_signature, pyAddStrOpt, hpk, mkVerifyKey, hpkLen,
    pyVerifyAttempt, hsig, verifyKeyVerify, hsigLen]
  simp only [if_true, reduceIte]
  cases ed pkBytes (strEncode (ts ++ raw)) sigBytes <;> rfl

/-- Closed witness for C3: with the all-zero key and signature and an
accepting oracle, verification returns exactly the oracle's verdict on
the key bytes, the encoded concatenation and the signature bytes. -/
theorem c3_witness :
    discord_verify_signature edTrue pk0hex (some sig0hex) (some "7") (some "x")
      = .ok (edTrue (List.replicate 32 0) (strEncode ("7" ++ "x")) (List.replicate 64 0)) :=
  c3_verify_passes_exact_message edTrue pk0hex sig0hex "7" "x"
    (List.replicate 32 0) (List.replicate 64 0) rfl rfl rfl rfl

/-- C4 as stated is false of the code: on a type-1 payload the ping
acknowledgement body carries a space after the opening brace and
before the closing brace, so it is not exactly the claimed
whitespace-free string. -/
theorem c4_counterexample_ping_body_spaced :
    handle_discord_command [("type", PyVal.int 1)] (fun _ => .ok ⟨200, none, "ok"⟩)
        = .ok ⟨200, some [("Content-Type", "application/json")], "\x7b \"type\": 1 \x7d"⟩
    ∧ "\x7b \"type\": 1 \x7d" ≠ "\x7b\"type\": 1\x7d" :=
  ⟨rfl, by decide⟩

/-- C4 amended: for every command handler, `handle_discord_command` on
a payload whose type field equals 1 returns statusCode 200 with
Content-Type application/json and body exactly the spaced string
consisting of a brace, space, quoted word type, colon, space, 1,
space, brace — and does not call the command handler (the result is
this fixed envelope for every handler). -/
theorem c4_ping_returns_fixed_ack (payload : Payload)
    (hty : payload.lookup "type" = some (PyVal.int 1)) :
    ∀ base_handler : Payload → Except PyErr Resp,
      handle_discord_command payload base_handler
        = .ok ⟨200, some [("Content-Type", "application/json")], "\x7b \"type\": 1 \x7d"⟩ := by
  intro base_handler
  simp only [handle_discord_command, pyGetItem, hty]
  rfl

/-- Closed witness for the amended C4. -/
theorem c4_witness :
    handle_discord_command [("type", PyVal.int 1), ("id", PyVal.str "77")]
        (fun _ => .ok ⟨500, none, "never"⟩)
      = .ok ⟨200, some [("Content-Type", "application/json")], "\x7b \"type\": 1 \x7d"⟩ :=
  c4_ping_returns_fixed_ack [("type", PyVal.int 1), ("id", PyVal.str "77")] rfl
    (fun _ => .ok ⟨500, none, "never"⟩)

/-- C5: on a payload whose type field equals 2,
`handle_discord_command` returns exactly `base_handler payload` — the
handler applied once to the full original payload, its return value
passed back verbatim; in particular a handler that raises has its
exception propagated unchanged, since the result is the handler's
`Except` value itself. -/
theorem c5_command_dispatches_to_handler (payload : Payload)
    (hty : payload.lookup "type" = some (PyVal.int 2)) :
    ∀ base_handler : Payload → Except PyErr Resp,
      handle_discord_command payload base_handler = base_handler payload := by
  intro base_handler
  simp only [handle_discord_command, pyGetItem, hty]
  rfl

/-- Closed witness for C5: a raising handler has its exception
propagated. -/
theorem c5_witness :
    handle_discord_command [("type", PyVal.int 2), ("data", PyVal.str "hi")]
        (fun _ => .error (.typeError "handler blew up"))
      = .error (.typeError "handler blew up") :=
  c5_command_dispatches_to_handler [("type", PyVal.int 2), ("data", PyVal.str "hi")] rfl
    (fun _ => .error (.typeError "handler blew up"))

/-- C9: on a payload mapping with no type key,
`handle_discord_command` raises `KeyError` from the unguarded
subscript instead of returning any envelope, for every command
handler. -/
theorem c9_missing_type_key_raises (payload : Payload)
    (hty : payload.lookup "type" = none) :
    ∀ base_handler : Payload → Except PyErr Resp,
      handle_discord_command payload base_handler = .error (.keyError "type") := by
  intro base_handler
  simp only [handle_discord_command, pyGetItem, hty]

/-- Closed witness for C9. -/
theorem c9_witness :
    handle_discord_command [("data", PyVal.str "hi")] (fun _ => .ok ⟨200, none, "ok"⟩)
      = .error (.keyError "type") :=
  c9_missing_type_key_raises [("data", PyVal.str "hi")] rfl (fun _ => .ok ⟨200, none, "ok"⟩)

/-- The decimal digit characters are left unescaped by the JSON
encoder. -/
theorem digitChar_plain (m : Nat) (h : m < 10) : plainChar (Nat.digitChar m) = true := by
  interval_cases m <;> decide

/-- Every character `Nat.toDigitsCore` produces over base 10 is a
plain character, given the accumulator holds only plain characters. -/
theorem toDigitsCore_plain (fuel : Nat) : ∀ (n : Nat) (acc : List Char),
    (∀ c ∈ acc, plainChar c = true) →
    ∀ c ∈ Nat.toDigitsCore 10 fuel n acc, plainChar c = true := by
  induction fuel with
  | zero =>
    intro n acc hacc c hc
    rw [Nat.toDigitsCore] at hc
    exact hacc c hc
  | succ fuel ih =>
    intro n acc hacc c hc
    rw [Nat.toDigitsCore] at hc
    have hdig : plainChar (Nat.digitChar (n % 10)) = true :=
      digitChar_plain (n % 10) (Nat.mod_lt n (by decide))
    by_cases h0 : n / 10 = 0
    · rw [if_pos h0] at hc
      rcases List.mem_cons.mp hc with rfl | hmem
      · exact hdig
      · exact hacc c hmem
    · rw [if_neg h0] at hc
      refine ih (n / 10) (Nat.digitChar (n % 10) :: acc) ?_ c hc
      intro x hx
      rcases List.mem_cons.mp hx with rfl | hmem
      · exact hdig
      · exact hacc x hmem

/-- Every character of the decimal rendering of a natural number is
plain. -/
theorem natRepr_plain (n : Nat) : ∀ c ∈ (Nat.repr n).data, plainChar c = true := by
  intro c hc
  exact toDigitsCore_plain (n + 1) n [] (by simp) c hc

/-- Every character of the decimal rendering of an integer is plain
(including the minus sign). -/
theorem intRepr_plain (n : Int) : ∀ c ∈ (toString n).data, plainChar c = true := by
  cases n with
  | ofNat m =>
    intro c hc
    exact natRepr_plain m c hc
  | negSucc m =>
    intro c hc
    have hdata : (toString (Int.negSucc m)).data = '-' :: (Nat.repr (m + 1)).data := by
      show ("-" ++ Nat.repr (m + 1)).data = _
      rw [String.data_append]
      rfl
    rw [hdata] at hc
    rcases List.mem_cons.mp hc with rfl | hmem
    · decide
    · exact natRepr_plain (m + 1) c hmem

/-- Escaping a list of plain characters is the identity. -/
theorem jsonEscapeList_plain : ∀ l : List Char,
    (∀ c ∈ l, plainChar c = true) → jsonEscapeList l = String.mk l := by
  intro l
  induction l with
  | nil => intro _; rfl
  | cons c cs ih =>
    intro h
    have hc : plainChar c = true := h c (List.mem_cons_self c cs)
    have hcs : jsonEscapeList cs = String.mk cs :=
      ih (fun x hx => h x (List.mem_cons_of_mem c hx))
    simp only [jsonEscapeList, jsonEscapeChar, hc, if_true, hcs]
    rfl

/-- `json.dumps` of a string of plain characters just wraps it in
quotes. -/
theorem jsonDumpsStr_plain (s : String) (h : ∀ c ∈ s.data, plainChar c = true) :
    jsonDumpsStr s = "\"" ++ s ++ "\"" := by
  unfold jsonDumpsStr
  rw [jsonEscapeList_plain s.data h]

/-- C6: for every payload whose integer type field is neither 1 nor 2,
`handle_discord_command` returns statusCode 400 with a JSON body that
is the quoted message naming the unhandled type value in decimal, and
does not call the command handler (the result is independent of the
handler). -/
theorem c6_unrecognized_type_returns_400 (payload : Payload) (n : Int)
    (hty : payload.lookup "type" = some (PyVal.int n)) (h1 : n ≠ 1) (h2 : n ≠ 2) :
    ∀ base_handler : Payload → Except PyErr Resp,
      handle_discord_command payload base_handler
        = .ok ⟨400, some [("Content-Type", "application/json")],
               "\"unhandled request type: " ++ toString n ++ "\""⟩ := by
  intro base_handler
  have e1 : pyEqInt (PyVal.int n) 1 = false := by simp [pyEqInt, h1]
  have e2 : pyEqInt (PyVal.int n) 2 = false := by simp [pyEqInt, h2]
  simp only [handle_discord_command, pyGetItem, hty, e1, e2]
  have hpre : ∀ c ∈ ("unhandled request type: ").data, plainChar c = true := by
    have hall : (("unhandled request type: ").data.all plainChar) = true := by decide
    intro c hc
    exact List.all_eq_true.mp hall c hc
  have hplain : ∀ c ∈ ("unhandled request type: " ++ toString n).data, plainChar c = true := by
    intro c hc
    rw [String.data_append] at hc
    rcases List.mem_append.mp hc with hmem | hmem
    · exact hpre c hmem
    · exact intRepr_plain n c hmem
  simp only [pyStrOf]
  rw [jsonDumpsStr_plain _ hplain]
  rfl

/-- Closed witness for C6 at type value 99. -/
theorem c6_witness :
    handle_discord_command [("type", PyVal.int 99)] (fun _ => .ok ⟨200, none, "ok"⟩)
      = .ok ⟨400, some [("Content-Type", "application/json")],
             "\"unhandled request type: 99\""⟩ :=
  c6_unrecognized_type_returns_400 [("type", PyVal.int 99)] 99 rfl
    (by decide) (by decide) (fun _ => .ok ⟨200, none, "ok"⟩)

/-- The header extractor the AWS adapter passes to the webhook
decorator, per the claimed specialization: look the named header up in
the headers entry of the first argument via dict.get (an exact-key
lookup returning None when absent). -/
def awsExtractHeader (name : String) (a : LambdaArgs) : Except PyErr (Option String) :=
  match a.1.headersDict with
  | some hs => .ok (hs.lookup name)
  | none => .error (.keyError "headers")

/-- The raw-payload extractor of the claimed specialization: return
the body entry of the first argument. -/
def awsExtractRawPayload (a : LambdaArgs) : Except PyErr (Option String) :=
  match a.1.bodyVal with
  | some b => .ok (some b)
  | none => .error (.keyError "body")

/-- The payload extractor of the claimed specialization: JSON-parse
the body entry of the first argument. -/
def awsExtractPayload (json_loads : String → Except PyErr Payload)
    (a : LambdaArgs) : Except PyErr Payload :=
  match a.1.bodyVal with
  | some b => json_loads b
  | none => .error (.keyError "body")

/-- C10: `discord_command_lambda` is extensionally exactly
`discord_command_webhook` specialized with the three AWS extractors:
header lookup via dict.get on the headers entry, the raw body, and
the JSON-parse of the body — for every oracle, JSON parser, key,
handler and argument tuple. -/
theorem c10_lambda_is_webhook_specialization (ed : EdVerify)
    (json_loads : String → Except PyErr Payload) (discord_key : String)
    (base_handler : Payload → Except PyErr Resp) (args : LambdaArgs) :
    discord_command_lambda ed json_loads discord_key base_handler args
      = discord_command_webhook ed discord_key awsExtractHeader awsExtractRawPayload
          (awsExtractPayload json_loads) base_handler args := rfl

/-- C7 as stated is false of the code: the AWS adapter looks headers
up with a case-sensitive dict.get, so a request carrying the signature
headers under the capitalization X-Signature-Ed25519 and
X-Signature-Timestamp — even one an always-accepting oracle would
admit — does not have their values retrieved: both lookups yield None
and the handler raises TypeError instead of verifying. -/
theorem c7_counterexample_capitalized_headers :
    discord_command_lambda edTrue (fun _ => .ok [("type", PyVal.int 1)]) pk0hex
        (fun _ => .ok ⟨200, none, "ok"⟩)
        (⟨some [("X-Signature-Ed25519", sig0hex), ("X-Signature-Timestamp", "7")],
          some "x"⟩, ())
      = .error (.typeError "unsupported operand types for + NoneType and str") := rfl

/-- C7 amended: the header lookup is case-sensitive.  For every event
with a headers dict and a body, the decorated AWS handler feeds
verification exactly the values found under the exact keys
x-signature-ed25519 and x-signature-timestamp (None when absent, under
whatever other capitalization the header may be present). -/
theorem c7_header_lookup_case_sensitive (ed : EdVerify)
    (json_loads : String → Except PyErr Payload) (discord_key : String)
    (base_handler : Payload → Except PyErr Resp)
    (ev : LambdaEvent) (hs : List (String × String)) (b : String)
    (hh : ev.headersDict = some hs) (hb : ev.bodyVal = some b) :
    discord_command_lambda ed json_loads discord_key base_handler (ev, ())
      = match discord_verify_signature ed discord_key
              (hs.lookup "x-signature-ed25519") (hs.lookup "x-signature-timestamp")
              (some b) with
        | .error e => .error e
        | .ok is_valid =>
          if !is_valid then .ok ⟨401, none, "Invalid request signature"⟩
          else
            match json_loads b with
            | .error e => .error e
            | .ok payload => handle_discord_command payload base_handler := by
  simp only [discord_command_lambda, discord_command_webhook, hh, hb]

/-- Closed witness for the amended C7: with lowercase header names the
values are retrieved and verification runs (here rejecting, hence the
401 envelope). -/
theorem c7_witness :
    discord_command_lambda edFalse (fun _ => .ok [("type", PyVal.int 1)]) pk0hex
        (fun _ => .ok ⟨200, none, "ok"⟩)
        (⟨some [("x-signature-ed25519", sig0hex), ("x-signature-timestamp", "7")],
          some "x"⟩, ())
      = .ok ⟨401, none, "Invalid request signature"⟩ :=
  c7_header_lookup_case_sensitive edFalse (fun _ => .ok [("type", PyVal.int 1)]) pk0hex
    (fun _ => .ok ⟨200, none, "ok"⟩)
    ⟨some [("x-signature-ed25519", sig0hex), ("x-signature-timestamp", "7")], some "x"⟩
    [("x-signature-ed25519", sig0hex), ("x-signature-timestamp", "7")] "x" rfl rfl

/-- C8: `discord_command_response` always returns statusCode 200 with
Content-Type application/json and a body that is exactly the JSON
encoding of the two-level object carrying the callback type (rendered
in decimal, passed through unchanged) and the content (JSON-escaped
and quoted), with the CPython default separators; being a total
function of its two arguments it never fails. -/
theorem c8_command_response_shape (interaction_callback_type : Int) (content : String) :
    discord_command_response interaction_callback_type content
      = ⟨200, some [("Content-Type", "application/json")],
          "\x7b\"type\": " ++ toString interaction_callback_type
            ++ ", \"data\": \x7b\"content\": " ++ jsonDumpsStr content ++ "\x7d\x7d"⟩ := by
  have h1 : jsonDumpsStr "type" = "\"type\"" := rfl
  have h2 : jsonDumpsStr "data" = "\"data\"" := rfl
  have h3 : jsonDumpsStr "content" = "\"content\"" := rfl
  have hbody : jsonDumps (JVal.jobj [("type", JVal.jint interaction_callback_type),
        ("data", JVal.jobj [("content", JVal.jstr content)])])
      = "\x7b\"type\": " ++ toString interaction_callback_type
          ++ ", \"data\": \x7b\"content\": " ++ jsonDumpsStr content ++ "\x7d\x7d" := by
    simp only [jsonDumps, jsonDumpsFields, h1, h2, h3]
    apply String.ext
    simp [String.data_append]
  simp only [discord_command_response, hbody]
